import Mathlib

/-!
Verification of the MCP-Server-Starter repository's two tools against its
specification.

The resilient `fetch_user` tool (src/examples/rest-api.ts, retry version) is
embedded shallowly: the environment's behaviour on each network attempt is an
`Outcome` (an HTTP response carrying a status, status text and a parsed-JSON
body, or a rejected fetch/json promise), and the handler is a pure function
from the request's `userId` and the per-attempt outcomes to the returned
`ToolResult` together with the list of observable effects (network calls and
backoff waits).

JSON values are modelled with integer numbers: no claim depends on fractional
or floating-point behaviour. Schema validation follows zod v3 (the version the
MCP SDK dependency pins): `.parse` either succeeds or produces the list of
issue messages, with zod's default message texts ("Required" for a missing
field, "Expected string, received number", refinement messages, etc.).
-/

/-- JSON values as produced by `response.json()`. Numbers are modelled as
integers (no claim depends on non-integral values). An object is a finite map
given as an association list without duplicate keys, as `JSON.parse` yields. -/
inductive Json where
  | null
  | bool (b : Bool)
  | num (n : Int)
  | str (s : String)
  | arr (elems : List Json)
  | obj (fields : List (String × Json))

/-- Zod's name for the parsed type of a value, used in invalid-type issue
messages. -/
def jsonTypeName : Json → String
  | Json.null => "null"
  | Json.bool _ => "boolean"
  | Json.num _ => "number"
  | Json.str _ => "string"
  | Json.arr _ => "array"
  | Json.obj _ => "object"

/-- Lookup of a key in a JSON object (association list). -/
def lookupField : List (String × Json) → String → Option Json
  | [], _ => none
  | (k, v) :: rest, key => if k = key then some v else lookupField rest key

/-- The character between quotes in zod's unrecognized-keys message. -/
def singleQuote : String := String.singleton (Char.ofNat 39)

/-- Character allowed in the local part of an email by zod's email regex. -/
def isEmailLocalChar (c : Char) : Bool :=
  c.isAlphanum || c == '_' || c == Char.ofNat 39 || c == '+' || c == '-' || c == '.'

/-- Character allowed as the final local-part character by zod's email regex. -/
def isEmailLastChar (c : Char) : Bool :=
  c.isAlphanum || c == '_' || c == '+' || c == '-'

/-- No two consecutive dots, per the negative lookahead in zod's email regex. -/
def noDoubleDot : List Char → Bool
  | [] => true
  | [_] => true
  | a :: b :: rest => !(a == '.' && b == '.') && noDoubleDot (b :: rest)

/-- Splitting of a character list at every occurrence of a separator
character. -/
def splitOnChar (sep : Char) : List Char → List (List Char)
  | [] => [[]]
  | c :: rest =>
      match splitOnChar sep rest with
      | [] => if c == sep then [[], []] else [[c]]
      | h :: t => if c == sep then [] :: h :: t else (c :: h) :: t

/-- Local part of an email: nonempty, allowed characters, no leading dot, no
double dot, final character restricted. -/
def isEmailLocal (loc : List Char) : Bool :=
  !loc.isEmpty
    && loc.all isEmailLocalChar
    && !(loc.headD ' ' == '.')
    && noDoubleDot loc
    && isEmailLastChar (loc.getLastD ' ')

/-- Domain label: alphanumeric first character, then alphanumerics or dashes. -/
def isDomainLabel (l : List Char) : Bool :=
  match l with
  | [] => false
  | c :: rest => c.isAlphanum && rest.all (fun d => d.isAlphanum || d == '-')

/-- Top-level domain: at least two characters, all letters. -/
def isTld (l : List Char) : Bool :=
  2 ≤ l.length && l.all Char.isAlpha

/-- Domain of an email: one or more labels then a top-level domain. -/
def isEmailDomain (dom : List Char) : Bool :=
  let parts := splitOnChar '.' dom
  2 ≤ parts.length && parts.dropLast.all isDomainLabel && isTld (parts.getLastD [])

/-- Modelled from zod v3's email regex: exactly one at-sign separating a valid
local part from a valid domain. -/
def isEmail (s : String) : Bool :=
  match splitOnChar '@' s.data with
  | [loc, dom] => isEmailLocal loc && isEmailDomain dom
  | _ => false

/-- Zipcode regex of the schema: five digits optionally followed by a dash and
four digits. -/
def isZipcode (s : String) : Bool :=
  match s.data with
  | [a, b, c, d, e] => [a, b, c, d, e].all Char.isDigit
  | [a, b, c, d, e, dash, f, g, h, i] =>
      [a, b, c, d, e].all Char.isDigit && dash == '-' && [f, g, h, i].all Char.isDigit
  | _ => false

/-- Phone regex of the schema: one or more characters from the allowed set. -/
def isPhoneChar (c : Char) : Bool :=
  c.isDigit || c == '-' || c == '(' || c == ')' || c == '.' || c == '+' || c == ' '

/-- Phone validation per the schema's regex. -/
def isPhone (s : String) : Bool :=
  !s.data.isEmpty && s.data.all isPhoneChar

/-- Character allowed after the first character of a URL scheme. -/
def isSchemeChar (c : Char) : Bool :=
  c.isAlphanum || c == '+' || c == '-' || c == '.'

/-- Modelled after the external URL parser used by zod's url() check,
simplified to requiring a well-formed scheme before a colon; faithful for every
input considered in this development. -/
def isUrl (s : String) : Bool :=
  match splitOnChar ':' s.data with
  | scheme :: _ :: _ =>
      match scheme with
      | [] => false
      | c :: rest => c.isAlpha && rest.all isSchemeChar
  | _ => false

/-- Address sub-record of the user record. -/
structure Address where
  street : String
  suite : String
  city : String
  zipcode : String
deriving DecidableEq, Repr

/-- Company sub-record of the user record. -/
structure Company where
  name : String
  catchPhrase : String
  bs : String
deriving DecidableEq, Repr

/-- The validated user record (the TypeScript `UserData` type inferred from
`UserDataSchema`). -/
structure UserData where
  id : Int
  name : String
  username : String
  email : String
  address : Address
  phone : String
  website : String
  company : Company
deriving DecidableEq, Repr

/-- Validation of a plain `z.string()` field. Returns zod's issue messages and
the extracted value (a default stands in when validation failed; it is never
used, since parse only succeeds when no issue was produced). -/
def vStr (v : Option Json) : List String × String :=
  match v with
  | none => (["Required"], "")
  | some (Json.str s) => ([], s)
  | some w => (["Expected string, received " ++ jsonTypeName w], "")

/-- Validation of a `z.string()` field carrying one refinement with message
`msg` and predicate `p`. -/
def vStrCheck (msg : String) (p : String → Bool) (v : Option Json) : List String × String :=
  match v with
  | none => (["Required"], "")
  | some (Json.str s) => (if p s then [] else [msg], s)
  | some w => (["Expected string, received " ++ jsonTypeName w], "")

/-- Validation of the `z.number().positive()` id field. -/
def vNumPos (v : Option Json) : List String × Int :=
  match v with
  | none => (["Required"], 0)
  | some (Json.num n) => (if 0 < n then [] else ["Number must be greater than 0"], n)
  | some w => (["Expected number, received " ++ jsonTypeName w], 0)

/-- Predicate of `z.string().min(1)`. -/
def minLen1 (s : String) : Bool := 1 ≤ s.length

/-- Validation of the nested address object (non-strict: unknown keys are
stripped silently). -/
def vAddress (v : Option Json) : List String × Address :=
  match v with
  | none => (["Required"], ⟨"", "", "", ""⟩)
  | some (Json.obj fs) =>
      let st := vStr (lookupField fs "street")
      let su := vStr (lookupField fs "suite")
      let ci := vStr (lookupField fs "city")
      let zi := vStrCheck "Invalid zipcode format" isZipcode (lookupField fs "zipcode")
      (st.1 ++ su.1 ++ ci.1 ++ zi.1, ⟨st.2, su.2, ci.2, zi.2⟩)
  | some w => (["Expected object, received " ++ jsonTypeName w], ⟨"", "", "", ""⟩)

/-- Validation of the nested company object. -/
def vCompany (v : Option Json) : List String × Company :=
  match v with
  | none => (["Required"], ⟨"", "", ""⟩)
  | some (Json.obj fs) =>
      let na := vStr (lookupField fs "name")
      let cp := vStr (lookupField fs "catchPhrase")
      let bs := vStr (lookupField fs "bs")
      (na.1 ++ cp.1 ++ bs.1, ⟨na.2, cp.2, bs.2⟩)
  | some w => (["Expected object, received " ++ jsonTypeName w], ⟨"", "", ""⟩)

/-- The declared keys of `UserDataSchema`, in declaration order. -/
def userDataKeys : List String :=
  ["id", "name", "username", "email", "address", "phone", "website", "company"]

/-- Parse of `UserDataSchema.parse(rawData)`: either the validated `UserData`
or the list of issue messages of the thrown ZodError, in the order zod reports
them (field issues in shape order, then the strict-mode unrecognized-keys
issue). The handler only ever reads the issue messages
(`error.errors.map(e => e.message)`), so issues are modelled by their message
strings. -/
def UserDataSchema.parse (j : Json) : Except (List String) UserData :=
  match j with
  | Json.obj fs =>
      let idv := vNumPos (lookupField fs "id")
      let nam := vStrCheck "String must contain at least 1 character(s)" minLen1 (lookupField fs "name")
      let usr := vStrCheck "String must contain at least 1 character(s)" minLen1 (lookupField fs "username")
      let eml := vStrCheck "Invalid email" isEmail (lookupField fs "email")
      let adr := vAddress (lookupField fs "address")
      let pho := vStrCheck "Invalid phone format" isPhone (lookupField fs "phone")
      let web := vStrCheck "Invalid url" isUrl (lookupField fs "website")
      let cmp := vCompany (lookupField fs "company")
      let extraKeys := (fs.map Prod.fst).filter (fun k => !(userDataKeys.contains k))
      let strictIssues :=
        if extraKeys.isEmpty then []
        else ["Unrecognized key(s) in object: "
                ++ String.intercalate ", " (extraKeys.map (fun k => singleQuote ++ k ++ singleQuote))]
      let issues := idv.1 ++ nam.1 ++ usr.1 ++ eml.1 ++ adr.1 ++ pho.1 ++ web.1 ++ cmp.1 ++ strictIssues
      if issues.isEmpty then
        Except.ok ⟨idv.2, nam.2, usr.2, eml.2, adr.2, pho.2, web.2, cmp.2⟩
      else Except.error issues
  | w => Except.error ["Expected object, received " ++ jsonTypeName w]

/-- Retry budget of the handler (`MAX_RETRIES` in the source). -/
def MAX_RETRIES : Nat := 3

/-- Initial backoff delay in milliseconds (`INITIAL_RETRY_DELAY`). -/
def INITIAL_RETRY_DELAY : Nat := 1000

/-- Exponential backoff helper: `INITIAL_RETRY_DELAY * Math.pow(2, attempt)`. -/
def getRetryDelay (attempt : Nat) : Nat :=
  INITIAL_RETRY_DELAY * 2 ^ attempt

/-- The readable formatting of a validated record (`formatUserData`). The
source builds a template literal opening and closing with a newline and applies
`.trim()`; since the template's fixed ends make trim exactly drop those two
newlines regardless of the field values, the trimmed string is written
directly. -/
def formatUserData (u : UserData) : String :=
  "User Profile:\n  Name: " ++ u.name
    ++ "\n  Username: " ++ u.username
    ++ "\n  Email: " ++ u.email
    ++ "\n  Address: " ++ u.address.street ++ ", " ++ u.address.suite
    ++ "\n           " ++ u.address.city ++ ", " ++ u.address.zipcode
    ++ "\n  Phone: " ++ u.phone
    ++ "\n  Website: " ++ u.website
    ++ "\n  Company: " ++ u.company.name
    ++ "\n          \"" ++ u.company.catchPhrase ++ "\""

/-- One content item of a tool result. -/
structure ContentItem where
  type : String
  text : String
deriving DecidableEq, Repr

/-- The MCP tool result: content items plus the optional `isError` flag
(`none` models the field being omitted). -/
structure ToolResult where
  content : List ContentItem
  isError : Option Bool
deriving DecidableEq, Repr

/-- Result returned on HTTP 404. -/
def notFoundResult (userId : Int) : ToolResult :=
  ⟨[⟨"text", "User with ID " ++ toString userId ++ " not found"⟩], some true⟩

/-- Result returned on HTTP 429 on the last attempt. -/
def rateLimitResult : ToolResult :=
  ⟨[⟨"text", "Rate limit exceeded. Please try again later."⟩], some true⟩

/-- Result returned on successful validation. -/
def successResult (u : UserData) : ToolResult :=
  ⟨[⟨"text", formatUserData u⟩], none⟩

/-- Values that can be thrown inside the try block: a ZodError (carrying its
issue messages), a JavaScript Error (carrying its message), or any non-Error
value. -/
inductive Thrown where
  | zodError (issues : List String)
  | jsError (msg : String)
  | nonError
deriving DecidableEq, Repr

/-- The catch block's classification on the last attempt. -/
def catchResult (t : Thrown) : ToolResult :=
  match t with
  | Thrown.zodError issues =>
      ⟨[⟨"text", "Invalid API response format: " ++ String.intercalate ", " issues⟩], some true⟩
  | Thrown.jsError m =>
      ⟨[⟨"text", "Failed to fetch user data: " ++ m⟩], some true⟩
  | Thrown.nonError =>
      ⟨[⟨"text", "An unknown error occurred while fetching user data"⟩], some true⟩

/-- The defensive result after the loop (commented in the source as
unreachable). -/
def exhaustedResult : ToolResult :=
  ⟨[⟨"text", "Failed to fetch user data after all retry attempts"⟩], some true⟩

/-- Behaviour of the environment on one network attempt: an HTTP response
(status, statusText, and the result of `response.json()` — `Except.error`
models the json promise rejecting with an Error message), a fetch rejection
with an Error, or a thrown non-Error value. -/
inductive Outcome where
  | response (status : Nat) (statusText : String) (body : Except String Json)
  | throwErr (msg : String)
  | throwNonError

/-- JavaScript `response.ok`: status in the inclusive range 200-299. -/
def responseOk (status : Nat) : Bool :=
  200 ≤ status && status ≤ 299

/-- What the try block produces: an early return, or the wait-and-continue of
the rate-limited branch. -/
inductive TryOut where
  | ret (r : ToolResult)
  | rateLimitRetry
deriving DecidableEq, Repr

/-- The try block of one attempt, mirroring the source order: 404 check, 429
check, non-ok check (throwing an Error carrying the status), `response.json()`
(whose rejection is an Error), then schema validation (whose failure is a
ZodError), then the success return. -/
def tryBody (userId : Int) (attempt : Nat) (out : Outcome) : Except Thrown TryOut :=
  match out with
  | Outcome.throwErr m => Except.error (Thrown.jsError m)
  | Outcome.throwNonError => Except.error Thrown.nonError
  | Outcome.response status statusText body =>
      if status = 404 then Except.ok (TryOut.ret (notFoundResult userId))
      else if status = 429 then
        if attempt = MAX_RETRIES - 1 then Except.ok (TryOut.ret rateLimitResult)
        else Except.ok TryOut.rateLimitRetry
      else if !responseOk status then
        Except.error (Thrown.jsError ("HTTP " ++ toString status ++ ": " ++ statusText))
      else
        match body with
        | Except.error m => Except.error (Thrown.jsError m)
        | Except.ok j =>
            match UserDataSchema.parse j with
            | Except.error issues => Except.error (Thrown.zodError issues)
            | Except.ok u => Except.ok (TryOut.ret (successResult u))

/-- Net effect of one attempt: the handler either returns a result or waits
`d` milliseconds and moves to the next attempt. -/
inductive StepResult where
  | done (r : ToolResult)
  | retry (d : Nat)
deriving DecidableEq, Repr

/-- One full attempt (try block plus catch block): the rate-limited branch and
the catch block both return on the last attempt and otherwise wait
`getRetryDelay attempt` and continue. -/
def attemptStep (userId : Int) (attempt : Nat) (out : Outcome) : StepResult :=
  match tryBody userId attempt out with
  | Except.ok (TryOut.ret r) => StepResult.done r
  | Except.ok TryOut.rateLimitRetry => StepResult.retry (getRetryDelay attempt)
  | Except.error t =>
      if attempt = MAX_RETRIES - 1 then StepResult.done (catchResult t)
      else StepResult.retry (getRetryDelay attempt)

/-- Observable effects of a run: issued network calls and backoff waits (with
their duration in milliseconds), in order. -/
inductive Event where
  | call
  | wait (d : Nat)
deriving DecidableEq, Repr

/-- The retry loop `for (let attempt = 0; attempt < MAX_RETRIES; attempt++)`,
encoded with the remaining iteration count as fuel (`fuel` stands for
`MAX_RETRIES - attempt`; when it reaches zero the loop condition fails and the
trailing defensive return runs). Every attempt entered issues one network
call; a retrying attempt additionally waits before the next one. -/
def fetchUserLoop (userId : Int) (env : Nat → Outcome) : Nat → Nat → ToolResult × List Event
  | _, 0 => (exhaustedResult, [])
  | attempt, fuel + 1 =>
      match attemptStep userId attempt (env attempt) with
      | StepResult.done r => (r, [Event.call])
      | StepResult.retry d =>
          let rest := fetchUserLoop userId env (attempt + 1) fuel
          (rest.1, Event.call :: Event.wait d :: rest.2)

/-- The fetch_user handler: run the retry loop from attempt 0 with the full
budget. -/
def fetch_user (userId : Int) (env : Nat → Outcome) : ToolResult × List Event :=
  fetchUserLoop userId env 0 MAX_RETRIES

/-- The calculate_sum handler (src/examples/calculator.ts): one text content
item holding the decimal representation of the sum, no isError field. Numbers
are modelled as integers; none of the stated properties depends on
floating-point behaviour. -/
def calculate_sum (a b : Int) : ToolResult :=
  ⟨[⟨"text", toString (a + b)⟩], none⟩

/-- Prefix test on character lists, used to define substring occurrence. -/
def startsWithL : List Char → List Char → Bool
  | [], _ => true
  | _ :: _, [] => false
  | a :: as, b :: bs => a == b && startsWithL as bs

/-- Number of positions of `s` at which `pat` occurs as a substring. -/
def occurrences (pat s : String) : Nat :=
  (List.range (s.data.length + 1)).countP (fun i => startsWithL pat.data (s.data.drop i))

/-- Substring containment, as positive occurrence count. -/
def ContainsStr (pat s : String) : Prop :=
  0 < occurrences pat s

instance (pat s : String) : Decidable (ContainsStr pat s) :=
  Nat.decLt 0 (occurrences pat s)

theorem startsWithL_append (as bs : List Char) : startsWithL as (as ++ bs) = true := by
  induction as with
  | nil => rfl
  | cons a as ih => simp [startsWithL, ih]

theorem contains_of_eq_append (pat l r s : String) (h : s = l ++ pat ++ r) :
    ContainsStr pat s := by
  subst h
  unfold ContainsStr occurrences
  rw [List.countP_pos_iff]
  refine ⟨l.data.length, ?_, ?_⟩
  · rw [List.mem_range]
    simp [String.data_append]
    omega
  · have hdata : (l ++ pat ++ r).data = l.data ++ (pat.data ++ r.data) := by
      simp [String.data_append]
    rw [hdata, List.drop_left, startsWithL_append]

/-- C4: the backoff delay satisfies `delay(attempt) = INITIAL_DELAY * 2^attempt`
with attempt zero-indexed and `INITIAL_DELAY = 1000` ms, and is strictly
increasing for attempt = 0, 1, 2. -/
theorem getRetryDelay_spec :
    (∀ attempt : Nat, getRetryDelay attempt = 1000 * 2 ^ attempt)
    ∧ INITIAL_RETRY_DELAY = 1000
    ∧ getRetryDelay 0 < getRetryDelay 1
    ∧ getRetryDelay 1 < getRetryDelay 2 := by
  refine ⟨fun attempt => rfl, rfl, by decide, by decide⟩

/-- C10: for all numbers a and b, calculate_sum returns exactly one text
content item holding the decimal representation of a + b, sets no isError flag,
and is commutative. -/
theorem calculate_sum_spec (a b : Int) :
    calculate_sum a b = ⟨[⟨"text", toString (a + b)⟩], none⟩
    ∧ (calculate_sum a b).isError = none
    ∧ (calculate_sum a b).content.map ContentItem.type = ["text"]
    ∧ calculate_sum a b = calculate_sum b a := by
  refine ⟨rfl, rfl, rfl, ?_⟩
  simp [calculate_sum, Int.add_comm]

/-- C2: an HTTP 404 on the first attempt terminates immediately after exactly
one network call with an isError result whose text contains the identifier and
states it was not found. -/
theorem fetch_user_not_found (userId : Int) (env : Nat → Outcome)
    (stx : String) (body : Except String Json)
    (h : env 0 = Outcome.response 404 stx body) :
    fetch_user userId env
      = (⟨[⟨"text", "User with ID " ++ toString userId ++ " not found"⟩], some true⟩,
         [Event.call])
    ∧ (fetch_user userId env).2.count Event.call = 1
    ∧ (fetch_user userId env).1.isError = some true
    ∧ ContainsStr (toString userId) ("User with ID " ++ toString userId ++ " not found")
    ∧ ContainsStr "not found" ("User with ID " ++ toString userId ++ " not found") := by
  have hmain : fetch_user userId env
      = (⟨[⟨"text", "User with ID " ++ toString userId ++ " not found"⟩], some true⟩,
         [Event.call]) := by
    simp [fetch_user, MAX_RETRIES, fetchUserLoop, attemptStep, tryBody, h, notFoundResult]
  refine ⟨hmain, ?_, ?_, ?_, ?_⟩
  · rw [hmain]; rfl
  · rw [hmain]
  · exact contains_of_eq_append _ "User with ID " " not found" _ rfl
  · exact contains_of_eq_append "not found" ("User with ID " ++ toString userId ++ " ") "" _ (by
      simp [String.append_assoc])

/-- Environment answering 404 on every attempt, for the C2 witness. -/
def envNotFound : Nat → Outcome :=
  fun _ => Outcome.response 404 "Not Found" (Except.ok Json.null)

/-- Witness for C2 at userId 9 against `envNotFound`. -/
theorem fetch_user_not_found_witness :
    fetch_user 9 envNotFound
      = (⟨[⟨"text", "User with ID " ++ toString (9 : Int) ++ " not found"⟩], some true⟩,
         [Event.call])
    ∧ (fetch_user 9 envNotFound).2.count Event.call = 1
    ∧ (fetch_user 9 envNotFound).1.isError = some true
    ∧ ContainsStr (toString (9 : Int)) ("User with ID " ++ toString (9 : Int) ++ " not found")
    ∧ ContainsStr "not found" ("User with ID " ++ toString (9 : Int) ++ " not found") :=
  fetch_user_not_found 9 envNotFound "Not Found" (Except.ok Json.null) rfl

/-- Sample JSON body that validates against the schema. -/
def sampleBody : Json :=
  Json.obj [
    ("id", Json.num 1),
    ("name", Json.str "Leanne"),
    ("username", Json.str "lg"),
    ("email", Json.str "a@b.co"),
    ("address", Json.obj [
      ("street", Json.str "Main St"),
      ("suite", Json.str "Apt 1"),
      ("city", Json.str "Springfield"),
      ("zipcode", Json.str "12345")]),
    ("phone", Json.str "123-456"),
    ("website", Json.str "https://x.io"),
    ("company", Json.obj [
      ("name", Json.str "Acme"),
      ("catchPhrase", Json.str "go"),
      ("bs", Json.str "stuff")])]

/-- The record `sampleBody` parses to. -/
def sampleUser : UserData :=
  ⟨1, "Leanne", "lg", "a@b.co", ⟨"Main St", "Apt 1", "Springfield", "12345"⟩,
   "123-456", "https://x.io", ⟨"Acme", "go", "stuff"⟩⟩

/-- C1: rate-limited on attempts 1 and 2 and a success with a valid body on
attempt 3 yields exactly 3 network calls with waits of delay(0) and delay(1)
between them, and returns the success result. -/
theorem fetch_user_retry_then_success
    (userId : Int) (env : Nat → Outcome)
    (stx0 stx1 stx2 : String) (b0 b1 : Except String Json) (body : Json) (u : UserData)
    (h0 : env 0 = Outcome.response 429 stx0 b0)
    (h1 : env 1 = Outcome.response 429 stx1 b1)
    (h2 : env 2 = Outcome.response 200 stx2 (Except.ok body))
    (hp : UserDataSchema.parse body = Except.ok u) :
    fetch_user userId env
      = (successResult u,
         [Event.call, Event.wait (getRetryDelay 0), Event.call,
          Event.wait (getRetryDelay 1), Event.call])
    ∧ (fetch_user userId env).2.count Event.call = 3
    ∧ (fetch_user userId env).1.isError = none := by
  have hmain : fetch_user userId env
      = (successResult u,
         [Event.call, Event.wait (getRetryDelay 0), Event.call,
          Event.wait (getRetryDelay 1), Event.call]) := by
    simp [fetch_user, MAX_RETRIES, fetchUserLoop, attemptStep, tryBody, h0, h1, h2, hp,
      responseOk]
  refine ⟨hmain, ?_, ?_⟩
  · rw [hmain]; rfl
  · rw [hmain]; rfl

/-- Environment that is rate-limited twice and then succeeds, for the C1
witness. -/
def envRetrySuccess : Nat → Outcome :=
  fun n =>
    match n with
    | 0 => Outcome.response 429 "Too Many Requests" (Except.ok Json.null)
    | 1 => Outcome.response 429 "Too Many Requests" (Except.ok Json.null)
    | _ => Outcome.response 200 "OK" (Except.ok sampleBody)

/-- Witness for C1 at userId 7 against `envRetrySuccess`. -/
theorem fetch_user_retry_then_success_witness :
    fetch_user 7 envRetrySuccess
      = (successResult sampleUser,
         [Event.call, Event.wait (getRetryDelay 0), Event.call,
          Event.wait (getRetryDelay 1), Event.call])
    ∧ (fetch_user 7 envRetrySuccess).2.count Event.call = 3
    ∧ (fetch_user 7 envRetrySuccess).1.isError = none :=
  fetch_user_retry_then_success 7 envRetrySuccess
    "Too Many Requests" "Too Many Requests" "OK"
    (Except.ok Json.null) (Except.ok Json.null) sampleBody sampleUser
    rfl rfl rfl (by rfl)

/-- C3: rate-limited on all 3 attempts yields exactly 3 network calls and the
rate-limit-exceeded error result, never a success result. -/
theorem fetch_user_rate_limit_exhausted
    (userId : Int) (env : Nat → Outcome)
    (stx0 stx1 stx2 : String) (b0 b1 b2 : Except String Json)
    (h0 : env 0 = Outcome.response 429 stx0 b0)
    (h1 : env 1 = Outcome.response 429 stx1 b1)
    (h2 : env 2 = Outcome.response 429 stx2 b2) :
    fetch_user userId env
      = (rateLimitResult,
         [Event.call, Event.wait (getRetryDelay 0), Event.call,
          Event.wait (getRetryDelay 1), Event.call])
    ∧ (fetch_user userId env).2.count Event.call = 3
    ∧ (fetch_user userId env).1.isError = some true
    ∧ ∀ u : UserData, (fetch_user userId env).1 ≠ successResult u := by
  have hmain : fetch_user userId env
      = (rateLimitResult,
         [Event.call, Event.wait (getRetryDelay 0), Event.call,
          Event.wait (getRetryDelay 1), Event.call]) := by
    simp [fetch_user, MAX_RETRIES, fetchUserLoop, attemptStep, tryBody, h0, h1, h2]
  refine ⟨hmain, by rw [hmain]; rfl, by rw [hmain]; rfl, ?_⟩
  intro u hcontra
  rw [hmain] at hcontra
  have := congrArg ToolResult.isError hcontra
  simp [rateLimitResult, successResult] at this

/-- Environment answering 429 on every attempt, for the C3 witness. -/
def envAlways429 : Nat → Outcome :=
  fun _ => Outcome.response 429 "Too Many Requests" (Except.ok Json.null)

/-- Witness for C3 at userId 5 against `envAlways429`. -/
theorem fetch_user_rate_limit_exhausted_witness :
    fetch_user 5 envAlways429
      = (rateLimitResult,
         [Event.call, Event.wait (getRetryDelay 0), Event.call,
          Event.wait (getRetryDelay 1), Event.call])
    ∧ (fetch_user 5 envAlways429).2.count Event.call = 3
    ∧ (fetch_user 5 envAlways429).1.isError = some true
    ∧ ∀ u : UserData, (fetch_user 5 envAlways429).1 ≠ successResult u :=
  fetch_user_rate_limit_exhausted 5 envAlways429
    "Too Many Requests" "Too Many Requests" "Too Many Requests"
    (Except.ok Json.null) (Except.ok Json.null) (Except.ok Json.null)
    rfl rfl rfl

/-- C5 (amended): a first-attempt OK response whose body validates returns
immediately with no isError flag and the formatted text containing the
record's name, email, and city. -/
theorem fetch_user_first_attempt_success
    (userId : Int) (env : Nat → Outcome) (stx : String) (body : Json) (u : UserData)
    (h : env 0 = Outcome.response 200 stx (Except.ok body))
    (hp : UserDataSchema.parse body = Except.ok u) :
    fetch_user userId env = (successResult u, [Event.call])
    ∧ (fetch_user userId env).1.isError = none
    ∧ ContainsStr u.name (formatUserData u)
    ∧ ContainsStr u.email (formatUserData u)
    ∧ ContainsStr u.address.city (formatUserData u) := by
  have hmain : fetch_user userId env = (successResult u, [Event.call]) := by
    simp [fetch_user, MAX_RETRIES, fetchUserLoop, attemptStep, tryBody, h, hp, responseOk]
  refine ⟨hmain, by rw [hmain]; rfl, ?_, ?_, ?_⟩
  · exact contains_of_eq_append u.name "User Profile:\n  Name: "
      ("\n  Username: " ++ u.username ++ "\n  Email: " ++ u.email
        ++ "\n  Address: " ++ u.address.street ++ ", " ++ u.address.suite
        ++ "\n           " ++ u.address.city ++ ", " ++ u.address.zipcode
        ++ "\n  Phone: " ++ u.phone ++ "\n  Website: " ++ u.website
        ++ "\n  Company: " ++ u.company.name
        ++ "\n          \"" ++ u.company.catchPhrase ++ "\"") _
      (by simp [formatUserData, String.append_assoc])
  · exact contains_of_eq_append u.email
      ("User Profile:\n  Name: " ++ u.name ++ "\n  Username: " ++ u.username ++ "\n  Email: ")
      ("\n  Address: " ++ u.address.street ++ ", " ++ u.address.suite
        ++ "\n           " ++ u.address.city ++ ", " ++ u.address.zipcode
        ++ "\n  Phone: " ++ u.phone ++ "\n  Website: " ++ u.website
        ++ "\n  Company: " ++ u.company.name
        ++ "\n          \"" ++ u.company.catchPhrase ++ "\"") _
      (by simp [formatUserData, String.append_assoc])
  · exact contains_of_eq_append u.address.city
      ("User Profile:\n  Name: " ++ u.name ++ "\n  Username: " ++ u.username
        ++ "\n  Email: " ++ u.email
        ++ "\n  Address: " ++ u.address.street ++ ", " ++ u.address.suite
        ++ "\n           ")
      (", " ++ u.address.zipcode
        ++ "\n  Phone: " ++ u.phone ++ "\n  Website: " ++ u.website
        ++ "\n  Company: " ++ u.company.name
        ++ "\n          \"" ++ u.company.catchPhrase ++ "\"") _
      (by simp [formatUserData, String.append_assoc])

/-- Environment succeeding on the first attempt with `sampleBody`, for the C5
witness. -/
def envFirstSuccess : Nat → Outcome :=
  fun _ => Outcome.response 200 "OK" (Except.ok sampleBody)

/-- Witness for the amended C5 at userId 3 against `envFirstSuccess`. -/
theorem fetch_user_first_attempt_success_witness :
    fetch_user 3 envFirstSuccess = (successResult sampleUser, [Event.call])
    ∧ (fetch_user 3 envFirstSuccess).1.isError = none
    ∧ ContainsStr sampleUser.name (formatUserData sampleUser)
    ∧ ContainsStr sampleUser.email (formatUserData sampleUser)
    ∧ ContainsStr sampleUser.address.city (formatUserData sampleUser) :=
  fetch_user_first_attempt_success 3 envFirstSuccess "OK" sampleBody sampleUser rfl (by rfl)

/-- Body that validates and whose name also occurs elsewhere in the formatted
text (the name is the single letter a, which occurs in the template labels). -/
def nameABody : Json :=
  Json.obj [
    ("id", Json.num 1),
    ("name", Json.str "a"),
    ("username", Json.str "u"),
    ("email", Json.str "e@f.io"),
    ("address", Json.obj [
      ("street", Json.str "s"),
      ("suite", Json.str "t"),
      ("city", Json.str "c"),
      ("zipcode", Json.str "12345")]),
    ("phone", Json.str "1"),
    ("website", Json.str "h:x"),
    ("company", Json.obj [
      ("name", Json.str "k"),
      ("catchPhrase", Json.str "p"),
      ("bs", Json.str "b")])]

/-- The record `nameABody` parses to. -/
def nameAUser : UserData :=
  ⟨1, "a", "u", "e@f.io", ⟨"s", "t", "c", "12345"⟩, "1", "h:x", ⟨"k", "p", "b"⟩⟩

/-- Environment succeeding on the first attempt with `nameABody`. -/
def envNameA : Nat → Outcome :=
  fun _ => Outcome.response 200 "OK" (Except.ok nameABody)

set_option maxRecDepth 8192 in
/-- Counterexample to C5 as stated: a valid record resolved on the first
attempt whose name does not occur exactly once in the formatted text (it also
occurs in the template's labels), so the "exactly once each" occurrence count
fails. -/
theorem fetch_user_occurrence_counterexample :
    UserDataSchema.parse nameABody = Except.ok nameAUser
    ∧ fetch_user 1 envNameA = (successResult nameAUser, [Event.call])
    ∧ (successResult nameAUser).isError = none
    ∧ ¬ (occurrences nameAUser.name (formatUserData nameAUser) = 1) := by
  exact ⟨by rfl, by rfl, rfl, by decide⟩

/-- C6 (amended): an OK response whose body fails validation on every attempt
is retried after delay(attempt) on both non-final attempts, exhausts all 3
attempts, and returns isError = true with the last validation's issue messages
joined by a comma separator. -/
theorem fetch_user_invalid_body_exhausts
    (userId : Int) (env : Nat → Outcome)
    (stx0 stx1 stx2 : String) (b0 b1 b2 : Json) (is0 is1 is2 : List String)
    (h0 : env 0 = Outcome.response 200 stx0 (Except.ok b0))
    (hp0 : UserDataSchema.parse b0 = Except.error is0)
    (h1 : env 1 = Outcome.response 200 stx1 (Except.ok b1))
    (hp1 : UserDataSchema.parse b1 = Except.error is1)
    (h2 : env 2 = Outcome.response 200 stx2 (Except.ok b2))
    (hp2 : UserDataSchema.parse b2 = Except.error is2) :
    fetch_user userId env
      = (⟨[⟨"text", "Invalid API response format: " ++ String.intercalate ", " is2⟩],
          some true⟩,
         [Event.call, Event.wait (getRetryDelay 0), Event.call,
          Event.wait (getRetryDelay 1), Event.call])
    ∧ (fetch_user userId env).1.isError = some true := by
  have hmain : fetch_user userId env
      = (⟨[⟨"text", "Invalid API response format: " ++ String.intercalate ", " is2⟩],
          some true⟩,
         [Event.call, Event.wait (getRetryDelay 0), Event.call,
          Event.wait (getRetryDelay 1), Event.call]) := by
    simp [fetch_user, MAX_RETRIES, fetchUserLoop, attemptStep, tryBody, h0, h1, h2,
      hp0, hp1, hp2, responseOk, catchResult]
  exact ⟨hmain, by rw [hmain]⟩

/-- Body that misses the required email field but is otherwise valid. -/
def missingEmailBody : Json :=
  Json.obj [
    ("id", Json.num 1),
    ("name", Json.str "Leanne"),
    ("username", Json.str "lg"),
    ("address", Json.obj [
      ("street", Json.str "Main St"),
      ("suite", Json.str "Apt 1"),
      ("city", Json.str "Springfield"),
      ("zipcode", Json.str "12345")]),
    ("phone", Json.str "123-456"),
    ("website", Json.str "https://x.io"),
    ("company", Json.obj [
      ("name", Json.str "Acme"),
      ("catchPhrase", Json.str "go"),
      ("bs", Json.str "stuff")])]

/-- Environment answering OK with `missingEmailBody` on every attempt. -/
def envMissingEmail : Nat → Outcome :=
  fun _ => Outcome.response 200 "OK" (Except.ok missingEmailBody)

/-- Witness for the amended C6 at userId 7 against `envMissingEmail`: the only
issue message is Required, so the surfaced text is exactly the Invalid API
response format message with that issue. -/
theorem fetch_user_invalid_body_exhausts_witness :
    fetch_user 7 envMissingEmail
      = (⟨[⟨"text", "Invalid API response format: " ++ String.intercalate ", " ["Required"]⟩],
          some true⟩,
         [Event.call, Event.wait (getRetryDelay 0), Event.call,
          Event.wait (getRetryDelay 1), Event.call])
    ∧ (fetch_user 7 envMissingEmail).1.isError = some true :=
  fetch_user_invalid_body_exhausts 7 envMissingEmail "OK" "OK" "OK"
    missingEmailBody missingEmailBody missingEmailBody
    ["Required"] ["Required"] ["Required"]
    rfl (by rfl) rfl (by rfl) rfl (by rfl)

/-- Counterexample to C6 as stated: for the body missing the email field, the
surfaced message is zod's generic Required issue message, which does not name
the missing field — the text does not contain the substring email. -/
theorem fetch_user_missing_email_counterexample :
    UserDataSchema.parse missingEmailBody = Except.error ["Required"]
    ∧ fetch_user 7 envMissingEmail
        = (⟨[⟨"text", "Invalid API response format: Required"⟩], some true⟩,
           [Event.call, Event.wait 1000, Event.call, Event.wait 2000, Event.call])
    ∧ ¬ ContainsStr "email" "Invalid API response format: Required" := by
  exact ⟨by rfl, by rfl, by decide⟩

/-- C7: a failure raised on the last allowed attempt terminates the lookup
with isError = true and the classified message: a validation failure lists the
violated constraints joined by a comma separator, a transport failure reports
the Failed to fetch user data message with the Error's message, and an unknown
thrown value reports the generic unknown-error message. -/
theorem fetch_user_last_attempt_failure
    (userId : Int) (env : Nat → Outcome) (t : Thrown) (d0 d1 : Nat)
    (h0 : attemptStep userId 0 (env 0) = StepResult.retry d0)
    (h1 : attemptStep userId 1 (env 1) = StepResult.retry d1)
    (h2 : tryBody userId 2 (env 2) = Except.error t) :
    fetch_user userId env
      = (catchResult t, [Event.call, Event.wait d0, Event.call, Event.wait d1, Event.call])
    ∧ (fetch_user userId env).1.isError = some true
    ∧ (∀ issues, t = Thrown.zodError issues →
        catchResult t
          = ⟨[⟨"text", "Invalid API response format: " ++ String.intercalate ", " issues⟩],
             some true⟩)
    ∧ (∀ m, t = Thrown.jsError m →
        catchResult t = ⟨[⟨"text", "Failed to fetch user data: " ++ m⟩], some true⟩)
    ∧ (t = Thrown.nonError →
        catchResult t
          = ⟨[⟨"text", "An unknown error occurred while fetching user data"⟩], some true⟩) := by
  have hstep2 : attemptStep userId 2 (env 2) = StepResult.done (catchResult t) := by
    simp [attemptStep, h2, MAX_RETRIES]
  have hmain : fetch_user userId env
      = (catchResult t,
         [Event.call, Event.wait d0, Event.call, Event.wait d1, Event.call]) := by
    simp [fetch_user, MAX_RETRIES, fetchUserLoop, h0, h1, hstep2]
  refine ⟨hmain, ?_, ?_, ?_, ?_⟩
  · rw [hmain]; cases t <;> rfl
  · intro issues ht; subst ht; rfl
  · intro m ht; subst ht; rfl
  · intro ht; subst ht; rfl

/-- Environment whose fetch rejects with a connection error on every attempt. -/
def envConnRefused : Nat → Outcome :=
  fun _ => Outcome.throwErr "Connection refused"

/-- Witness for C7 at userId 4 against `envConnRefused`. -/
theorem fetch_user_last_attempt_failure_witness :
    fetch_user 4 envConnRefused
      = (catchResult (Thrown.jsError "Connection refused"),
         [Event.call, Event.wait (getRetryDelay 0), Event.call,
          Event.wait (getRetryDelay 1), Event.call])
    ∧ (fetch_user 4 envConnRefused).1.isError = some true
    ∧ (∀ issues, Thrown.jsError "Connection refused" = Thrown.zodError issues →
        catchResult (Thrown.jsError "Connection refused")
          = ⟨[⟨"text", "Invalid API response format: " ++ String.intercalate ", " issues⟩],
             some true⟩)
    ∧ (∀ m, Thrown.jsError "Connection refused" = Thrown.jsError m →
        catchResult (Thrown.jsError "Connection refused")
          = ⟨[⟨"text", "Failed to fetch user data: " ++ m⟩], some true⟩)
    ∧ (Thrown.jsError "Connection refused" = Thrown.nonError →
        catchResult (Thrown.jsError "Connection refused")
          = ⟨[⟨"text", "An unknown error occurred while fetching user data"⟩], some true⟩) :=
  fetch_user_last_attempt_failure 4 envConnRefused (Thrown.jsError "Connection refused")
    (getRetryDelay 0) (getRetryDelay 1) rfl rfl rfl

/-- Results the try block can return early: the not-found result, the
rate-limit result, or a success. -/
theorem tryBody_ret_cases (userId : Int) (a : Nat) (out : Outcome) (r : ToolResult)
    (h : tryBody userId a out = Except.ok (TryOut.ret r)) :
    r = notFoundResult userId ∨ r = rateLimitResult ∨ ∃ u, r = successResult u := by
  cases out with
  | throwErr m => simp [tryBody] at h
  | throwNonError => simp [tryBody] at h
  | response status statusText body =>
      simp only [tryBody] at h
      split at h
      · simp only [Except.ok.injEq, TryOut.ret.injEq] at h
        exact Or.inl h.symm
      · split at h
        · split at h
          · simp only [Except.ok.injEq, TryOut.ret.injEq] at h
            exact Or.inr (Or.inl h.symm)
          · simp at h
        · split at h
          · simp at h
          · cases body with
            | error m => simp at h
            | ok j =>
                cases hp : UserDataSchema.parse j with
                | error issues => simp [hp] at h
                | ok u =>
                    simp only [hp, Except.ok.injEq, TryOut.ret.injEq] at h
                    exact Or.inr (Or.inr ⟨u, h.symm⟩)

/-- Every result a returning attempt can produce: not-found, rate-limit,
success, or the catch block's classification. -/
theorem step_done_cases (userId : Int) (a : Nat) (out : Outcome) (r : ToolResult)
    (h : attemptStep userId a out = StepResult.done r) :
    r = notFoundResult userId ∨ r = rateLimitResult
    ∨ (∃ u, r = successResult u) ∨ ∃ t, r = catchResult t := by
  cases htb : tryBody userId a out with
  | ok tout =>
      cases tout with
      | ret r' =>
          have hs : attemptStep userId a out = StepResult.done r' := by
            simp [attemptStep, htb]
          have heq := hs.symm.trans h
          injection heq with heq
          subst heq
          rcases tryBody_ret_cases userId a out r' htb with h1 | h1 | ⟨u, h1⟩
          · exact Or.inl h1
          · exact Or.inr (Or.inl h1)
          · exact Or.inr (Or.inr (Or.inl ⟨u, h1⟩))
      | rateLimitRetry =>
          have hs : attemptStep userId a out = StepResult.retry (getRetryDelay a) := by
            simp [attemptStep, htb]
          rw [hs] at h
          exact absurd h (by simp)
  | error t =>
      by_cases hl : a = MAX_RETRIES - 1
      · subst hl
        have hs : attemptStep userId (MAX_RETRIES - 1) out = StepResult.done (catchResult t) := by
          simp [attemptStep, htb]
        have heq := hs.symm.trans h
        injection heq with heq
        exact Or.inr (Or.inr (Or.inr ⟨t, heq.symm⟩))
      · have hs : attemptStep userId a out = StepResult.retry (getRetryDelay a) := by
          simp [attemptStep, htb, hl]
        rw [hs] at h
        exact absurd h (by simp)

/-- Shape invariant of a tool result: exactly one text content item, and the
isError flag either set to true or absent on a success result. -/
def ResultOk (r : ToolResult) : Prop :=
  r.content.map ContentItem.type = ["text"]
  ∧ r.content.length = 1
  ∧ (r.isError = some true ∨ (r.isError = none ∧ ∃ u, r = successResult u))

theorem resultOk_catch (t : Thrown) : ResultOk (catchResult t) := by
  cases t <;> exact ⟨rfl, rfl, Or.inl rfl⟩

theorem step_done_resultOk (userId : Int) (a : Nat) (out : Outcome) (r : ToolResult)
    (h : attemptStep userId a out = StepResult.done r) : ResultOk r := by
  rcases step_done_cases userId a out r h with h1 | h1 | ⟨u, h1⟩ | ⟨t, h1⟩ <;> subst h1
  · exact ⟨rfl, rfl, Or.inl rfl⟩
  · exact ⟨rfl, rfl, Or.inl rfl⟩
  · exact ⟨rfl, rfl, Or.inr ⟨rfl, u, rfl⟩⟩
  · exact resultOk_catch t

/-- The loop invariant: whatever the environment and the starting point, the
loop's result satisfies the shape invariant. -/
theorem loop_resultOk (userId : Int) (env : Nat → Outcome) :
    ∀ (fuel attempt : Nat), ResultOk (fetchUserLoop userId env attempt fuel).1 := by
  intro fuel
  induction fuel with
  | zero => exact fun attempt => ⟨rfl, rfl, Or.inl rfl⟩
  | succ f ih =>
      intro attempt
      cases hs : attemptStep userId attempt (env attempt) with
      | done r =>
          have hres : (fetchUserLoop userId env attempt (f + 1)).1 = r := by
            simp [fetchUserLoop, hs]
          rw [hres]
          exact step_done_resultOk userId attempt (env attempt) r hs
      | retry d =>
          have hres : (fetchUserLoop userId env attempt (f + 1)).1
              = (fetchUserLoop userId env (attempt + 1) f).1 := by
            simp [fetchUserLoop, hs]
          rw [hres]
          exact ih (attempt + 1)

/-- C8: for every sequence of network responses and raised errors the handler
resolves to a ToolResult value (it is a total function of the environment)
with exactly one content item of type text, and isError is true on every
classified failure and omitted on success. -/
theorem fetch_user_result_invariant (userId : Int) (env : Nat → Outcome) :
    (fetch_user userId env).1.content.map ContentItem.type = ["text"]
    ∧ (fetch_user userId env).1.content.length = 1
    ∧ ((fetch_user userId env).1.isError = some true
        ∨ ((fetch_user userId env).1.isError = none
            ∧ ∃ u, (fetch_user userId env).1 = successResult u)) :=
  loop_resultOk userId env MAX_RETRIES 0

/-- The rate-limited wait-and-continue branch cannot be taken on the last
allowed attempt: its guard requires not being at attempt MAX_RETRIES - 1. -/
theorem tryBody_last_ne_retry (userId : Int) (out : Outcome) :
    tryBody userId (MAX_RETRIES - 1) out ≠ Except.ok TryOut.rateLimitRetry := by
  cases out with
  | throwErr m => simp [tryBody]
  | throwNonError => simp [tryBody]
  | response status statusText body =>
      simp only [tryBody]
      split
      · simp
      · split
        · simp
        · split
          · simp
          · cases body with
            | error m => simp
            | ok j => cases hp : UserDataSchema.parse j <;> simp [hp]

/-- Every outcome of the last allowed attempt produces a returned result: the
attempt never asks for a retry. -/
theorem step_last_done (userId : Int) (out : Outcome) :
    ∃ r, attemptStep userId (MAX_RETRIES - 1) out = StepResult.done r := by
  cases htb : tryBody userId (MAX_RETRIES - 1) out with
  | ok tout =>
      cases tout with
      | ret r => exact ⟨r, by simp [attemptStep, htb]⟩
      | rateLimitRetry => exact absurd htb (tryBody_last_ne_retry userId out)
  | error t => exact ⟨catchResult t, by simp [attemptStep, htb]⟩

/-- Two tool results differing at some character position of their first
content item's text are different. -/
theorem toolResult_ne_of_char (r₁ r₂ : ToolResult) (n : Nat)
    (h : (r₁.content.headD ⟨"", ""⟩).text.data.getD n 'A'
          ≠ (r₂.content.headD ⟨"", ""⟩).text.data.getD n 'A') :
    r₁ ≠ r₂ :=
  fun he => h (by rw [he])

/-- No result produced by a returning attempt equals the defensive post-loop
exhaustion result. -/
theorem step_done_ne_exhausted (userId : Int) (a : Nat) (out : Outcome) (r : ToolResult)
    (h : attemptStep userId a out = StepResult.done r) : r ≠ exhaustedResult := by
  rcases step_done_cases userId a out r h with h1 | h1 | ⟨u, h1⟩ | ⟨t, h1⟩ <;> subst h1
  · apply toolResult_ne_of_char _ _ 0
    simp only [notFoundResult, exhaustedResult, List.headD]
    rw [show ("User with ID " ++ toString userId ++ " not found").data
          = ("User with ID ").data ++ ((toString userId).data ++ (" not found").data) by
        simp [String.data_append]]
    rw [List.getD_append _ _ _ _ (by decide)]
    decide
  · decide
  · intro he
    have := congrArg ToolResult.isError he
    simp [successResult, exhaustedResult] at this
  · cases t with
    | zodError issues =>
        apply toolResult_ne_of_char _ _ 0
        simp only [catchResult, exhaustedResult, List.headD]
        rw [show ("Invalid API response format: " ++ String.intercalate ", " issues).data
              = ("Invalid API response format: ").data
                ++ (String.intercalate ", " issues).data by
            simp [String.data_append]]
        rw [List.getD_append _ _ _ _ (by decide)]
        decide
    | jsError m =>
        apply toolResult_ne_of_char _ _ 25
        simp only [catchResult, exhaustedResult, List.headD]
        rw [show ("Failed to fetch user data: " ++ m).data
              = ("Failed to fetch user data: ").data ++ m.data by
            simp [String.data_append]]
        rw [List.getD_append _ _ _ _ (by decide)]
        decide
    | nonError => decide

/-- C9: the defensive post-loop exhaustion result is unreachable: for every
sequence of network responses and raised errors, some attempt of the retry
loop returns (every earlier attempt having retried), the handler's result is
that attempt's result, and it is never the exhaustion result. -/
theorem fetch_user_no_exhaustion (userId : Int) (env : Nat → Outcome) :
    (∃ n, n < MAX_RETRIES
      ∧ (∀ m, m < n → ∃ d, attemptStep userId m (env m) = StepResult.retry d)
      ∧ ∃ r, attemptStep userId n (env n) = StepResult.done r
          ∧ (fetch_user userId env).1 = r)
    ∧ (fetch_user userId env).1 ≠ exhaustedResult := by
  have main : ∃ n, n < MAX_RETRIES
      ∧ (∀ m, m < n → ∃ d, attemptStep userId m (env m) = StepResult.retry d)
      ∧ ∃ r, attemptStep userId n (env n) = StepResult.done r
          ∧ (fetch_user userId env).1 = r := by
    cases hs0 : attemptStep userId 0 (env 0) with
    | done r =>
        refine ⟨0, by decide, fun m hm => absurd hm (Nat.not_lt_zero m), r, hs0, ?_⟩
        simp [fetch_user, MAX_RETRIES, fetchUserLoop, hs0]
    | retry d0 =>
        cases hs1 : attemptStep userId 1 (env 1) with
        | done r =>
            refine ⟨1, by decide, ?_, r, hs1, ?_⟩
            · intro m hm
              have hm0 : m = 0 := Nat.lt_one_iff.mp hm
              subst hm0
              exact ⟨d0, hs0⟩
            · simp [fetch_user, MAX_RETRIES, fetchUserLoop, hs0, hs1]
        | retry d1 =>
            obtain ⟨r, hs2⟩ := step_last_done userId (env 2)
            have hs2' : attemptStep userId 2 (env 2) = StepResult.done r := hs2
            refine ⟨2, by decide, ?_, r, hs2', ?_⟩
            · intro m hm
              have hm01 : m = 0 ∨ m = 1 := by omega
              rcases hm01 with hm0 | hm1
              · subst hm0; exact ⟨d0, hs0⟩
              · subst hm1; exact ⟨d1, hs1⟩
            · simp [fetch_user, MAX_RETRIES, fetchUserLoop, hs0, hs1, hs2']
  obtain ⟨n, hn, hprev, r, hstep, hres⟩ := main
  refine ⟨⟨n, hn, hprev, r, hstep, hres⟩, ?_⟩
  rw [hres]
  exact step_done_ne_exhausted userId n (env n) r hstep
